import Mathlib

/-! Verification of the coordination logic of a Vimeo media-download actor
(`src/main.py`).  Python strings are modelled as Lean `String` (operating on
the underlying `List Char` where slicing semantics matter), loosely-typed
Python values as explicit inductive types, Python dictionaries as association
lists, and fallible operations as `Except`-valued computations whose
`try/except` handlers become explicit `match`es on the result.  External
collaborators (the extraction library, the JSON parser of the standard
library, the key-value store, the filesystem) enter as parameters carrying
their observable results.
-/

namespace Vimeo

/-! Definitions: the shallow embedding of src/main.py. -/

/-- Characters of Python `s[:n]` where `n : Int` may be negative: a
non-negative bound keeps the first `n` characters, a negative bound drops the
last `-n` characters (clamped at the empty string, as in Python). -/
def pyTakeTo (s : String) (n : Int) : String :=
  if 0 ≤ n then ⟨s.data.take n.toNat⟩ else ⟨s.data.take (s.length - (-n).toNat)⟩

/-- Python `s.endswith(suff)`. -/
def strEndsWith (s suff : String) : Bool := decide (suff.data <:+ s.data)

/-- Python `s.lower()` (ASCII case folding, which is all the source needs). -/
def strLower (s : String) : String := ⟨s.data.map Char.toLower⟩

/-- Model of `_generate_safe_key` (src/main.py:152-174): build
`f"{video_id}.{extension}"`, truncate to 256 characters, and if the
truncation lost the `.extension` suffix rebuild the key as
`video_id[:256-len(extension)-1] + "." + extension`. -/
def generate_safe_key (video_id extension : String) : String :=
  let key := video_id ++ "." ++ extension
  if key.length > 256 then
    let truncated : String := ⟨key.data.take 256⟩
    if ¬ (strEndsWith truncated ("." ++ extension) = true) then
      pyTakeTo video_id ((256 : Int) - (extension.length : Int) - 1) ++ "." ++ extension
    else truncated
  else key

/-- A 256-character file extension, used to exhibit the length overflow of
`generate_safe_key`. -/
def longExtension : String := ⟨List.replicate 256 'b'⟩

/-- Python `x or default` for an optional string argument: `None` and the
empty string are falsy and yield the default. -/
def pyOrStr (x : Option String) (d : String) : String :=
  match x with
  | none => d
  | some s => if s = "" then d else s

/-- The deduplication loop of `_build_format_candidates` (src/main.py:116-123):
keep the first occurrence of each format string, tracking already-seen
entries. -/
def dedupKeepFirst : List String → List String → List String
  | [], _ => []
  | x :: xs, seen =>
    if x ∈ seen then dedupKeepFirst xs seen else x :: dedupKeepFirst xs (x :: seen)

/-- Model of `_build_format_candidates` (src/main.py:89-123): lower-case the
quality (defaulting to `"best"` for `None` or the empty string), pick the
fallback chain for the recognized quality names, and deduplicate preserving
first occurrence. -/
def build_format_candidates (quality : Option String) : List String :=
  let q := strLower (pyOrStr quality "best")
  let candidates :=
    if q = "audio_only" ∨ q = "audio" then
      ["bestaudio/best", "best"]
    else if q = "1080p" ∨ q = "1080" then
      ["bestvideo*[height<=1080][fps<=60]+bestaudio/best[height<=1080]",
       "bestvideo*[height<=1080]+bestaudio/best",
       "bestvideo[height<=1440]+bestaudio/best",
       "best"]
    else if q = "720p" ∨ q = "720" then
      ["bestvideo*[height<=720][fps<=60]+bestaudio/best[height<=720]",
       "bestvideo*[height<=720]+bestaudio/best",
       "bestvideo[height<=1080]+bestaudio/best",
       "best"]
    else
      ["bestvideo*+bestaudio/best", "bestvideo+bestaudio/best", "best"]
  dedupKeepFirst candidates []

/-- The known media extensions, `VIDEO_FILE_EXTENSIONS ∪ AUDIO_FILE_EXTENSIONS`
(src/main.py:30-32). -/
def MEDIA_FILE_EXTENSIONS : List String :=
  [".mp4", ".mkv", ".webm", ".mov", ".m4v",
   ".mp3", ".m4a", ".aac", ".opus", ".ogg", ".wav", ".flac"]

/-- Index of the last `'.'` in a character list (Python `str.rfind('.')`),
`none` when absent. -/
def rfindDotIdx (l : List Char) : Option Nat :=
  if '.' ∈ l then some (l.length - 1 - List.findIdx (fun c => c = '.') l.reverse)
  else none

/-- Model of `pathlib.PurePath.suffix` on a file name: the part of the name
from its last dot, provided that dot is neither the leading nor the trailing
character; otherwise the empty string. -/
def pathSuffix (name : String) : String :=
  match rfindDotIdx name.data with
  | none => ""
  | some i =>
    if 0 < i ∧ i < name.data.length - 1 then ⟨name.data.drop i⟩ else ""

/-- One entry of a scratch-directory listing: its base name, whether it is a
regular file, and its modification time (`st_mtime`, modelled as an integer
timestamp since only its ordering matters). -/
structure DirEntry where
  name : String
  isFile : Bool
  mtime : Int
deriving DecidableEq

/-- The filter of `_find_downloaded_media` (src/main.py:141-142): regular
files whose lower-cased extension is a known media extension. -/
def isMediaCandidate (e : DirEntry) : Bool :=
  e.isFile && MEDIA_FILE_EXTENSIONS.contains (strLower (pathSuffix e.name))

/-- Insertion step of a stable descending sort on modification time,
modelling `candidates.sort(key=..., reverse=True)`. -/
def insertByMtimeDesc (x : DirEntry) : List DirEntry → List DirEntry
  | [] => [x]
  | y :: ys =>
    if y.mtime ≤ x.mtime then x :: y :: ys else y :: insertByMtimeDesc x ys

/-- Stable descending sort on modification time. -/
def sortByMtimeDesc : List DirEntry → List DirEntry
  | [] => []
  | x :: xs => insertByMtimeDesc x (sortByMtimeDesc xs)

/-- Model of `_find_downloaded_media` (src/main.py:138-149): filter to media
candidates, return `none` when there are none, otherwise sort by modification
time descending and return the first entry. -/
def find_downloaded_media (entries : List DirEntry) : Option DirEntry :=
  let candidates := entries.filter isMediaCandidate
  if candidates.isEmpty then none
  else (sortByMtimeDesc candidates).head?

/-- Scalar JSON values as they appear inside cookie objects (floating-point
numbers and nested structures are outside the model). -/
inductive CVal where
  | vNull
  | vBool (b : Bool)
  | vInt (n : Int)
  | vStr (s : String)
deriving DecidableEq

/-- Python truthiness on scalar values. -/
def truthyC : CVal → Bool
  | .vNull => false
  | .vBool b => b
  | .vInt n => n != 0
  | .vStr s => s != ""

/-- Python `x or y` on scalar values. -/
def pyOrC (x y : CVal) : CVal := if truthyC x then x else y

/-- Python `str()` / f-string rendering of scalar values. -/
def pyStrC : CVal → String
  | .vNull => "None"
  | .vBool true => "True"
  | .vBool false => "False"
  | .vInt n => toString n
  | .vStr s => s

/-- Python `cookie.get(k)`: the stored value, `None` when the key is absent. -/
def cget (d : List (String × CVal)) (k : String) : CVal :=
  match d.lookup k with
  | some v => v
  | none => .vNull

/-- Python `cookie.get(k, default)`: the stored value, the supplied default
when the key is absent. -/
def cgetD (d : List (String × CVal)) (k : String) (v₀ : CVal) : CVal :=
  match d.lookup k with
  | some v => v
  | none => v₀

/-- Python `s.startswith(p)`. -/
def strStartsWith (s p : String) : Bool := decide (p.data <+: s.data)

/-- Fallible body of `_format_cookie_as_netscape` (src/main.py:277-290).  On
scalar cookie values the only operation that can raise is `.startswith` on a
truthy non-string domain (`AttributeError`), modelled as `Except.error`. -/
def formatCookieBody (cookie : List (String × CVal)) : Except Unit (Option String) :=
  let domain := pyOrC (cget cookie "domain") (.vStr ".vimeo.com")
  match domain with
  | .vStr domStr =>
    let include_subdomains := if strStartsWith domStr "." then "TRUE" else "FALSE"
    let path := pyOrC (cget cookie "path") (.vStr "/")
    let secure_flag :=
      if truthyC (cgetD cookie "secure" (.vBool false)) then "TRUE" else "FALSE"
    let expires := pyOrC (cget cookie "expirationDate")
      (pyOrC (cget cookie "expires") (.vInt 2147483647))
    let http_only :=
      if truthyC (cget cookie "httpOnly") || truthyC (cget cookie "http_only")
      then "#HttpOnly_" else ""
    let name := cget cookie "name"
    let value := cget cookie "value"
    if ¬ truthyC name = true ∨ value = .vNull then
      Except.ok none
    else
      Except.ok (some (http_only ++ domStr ++ "\t" ++ include_subdomains ++ "\t" ++
        pyStrC path ++ "\t" ++ secure_flag ++ "\t" ++ pyStrC expires ++ "\t" ++
        pyStrC name ++ "\t" ++ pyStrC value))
  | _ => Except.error ()

/-- Model of `_format_cookie_as_netscape` (src/main.py:267-293): the
`except Exception` handler converts any raised error into `None`. -/
def format_cookie_as_netscape (cookie : List (String × CVal)) : Option String :=
  match formatCookieBody cookie with
  | .ok r => r
  | .error _ => none

/-- A cookie object whose truthy domain is not a string. -/
def badDomainCookie : List (String × CVal) :=
  [("domain", CVal.vInt 1), ("name", CVal.vStr "a"), ("value", CVal.vStr "b")]

/-- The cookie used to witness the amended per-cookie formatter claim: a
truthy name with an empty-string value, every other field absent. -/
def witnessCookie : List (String × CVal) :=
  [("name", CVal.vStr "session"), ("value", CVal.vStr "")]

/-- One element of a top-level JSON array, as inspected by the normalizer:
either a cookie object or some other JSON value. -/
inductive JItem where
  | obj (d : List (String × CVal))
  | other

/-- A parsed top-level JSON document, as inspected by the normalizer: an
array, an object, or some other JSON value. -/
inductive JTop where
  | arr (l : List JItem)
  | obj (d : List (String × CVal))
  | other

/-- The cookie-jar file marker tested by `"# Netscape HTTP Cookie File" in
json_cookies`. -/
def netscapeMarker : String := "# Netscape HTTP Cookie File"

/-- The header lines of the generated cookie-jar file (src/main.py:241-246). -/
def netscapeHeader : List String :=
  ["# Netscape HTTP Cookie File",
   "# https://curl.se/docs/http-cookies.html",
   "# This file was generated by Vimeo Video Downloader Actor",
   ""]

/-- Python `"\n".join(lines)`. -/
def joinNL : List String → String
  | [] => ""
  | [x] => x
  | x :: y :: xs => x ++ "\n" ++ joinNL (y :: xs)

/-- The cookie lines accumulated by the loop of
`_convert_json_cookies_to_netscape` (src/main.py:249-258): for an array,
every element that is an object and formats to a truthy (non-empty) line; for
an object containing the key `name`, its single formatted line. -/
def cookieLines : JTop → List String
  | .arr l => l.filterMap (fun item =>
      match item with
      | .obj d =>
        match format_cookie_as_netscape d with
        | some line => if line ≠ "" then some line else none
        | none => none
      | .other => none)
  | .obj d =>
    if (d.lookup "name").isSome then
      match format_cookie_as_netscape d with
      | some line => if line ≠ "" then [line] else []
      | none => []
    else []
  | .other => []

/-- Model of `_convert_json_cookies_to_netscape` (src/main.py:220-264),
parameterized by the standard library's JSON parser `parse` (`json.loads`,
with `none` for a parse failure).  The `except` handler for a parse failure
returns the input unchanged. -/
def convert_json_cookies_to_netscape (parse : String → Option JTop)
    (json_cookies : String) : String :=
  if json_cookies = "" then ""
  else if netscapeMarker.data <:+: json_cookies.data then json_cookies
  else
    match parse json_cookies with
    | none => json_cookies
    | some data => joinNL (netscapeHeader ++ cookieLines data)

/-- Loosely-typed values of the extraction library's metadata records. -/
inductive Value where
  | vNull
  | vBool (b : Bool)
  | vInt (n : Int)
  | vStr (s : String)
  | vList (l : List Value)
  | vDict (d : List (String × Value))

/-- Python `e is None` on extraction values. -/
def isNullV : Value → Bool
  | .vNull => true
  | _ => false

/-- Python truthiness on extraction values. -/
def truthyV : Value → Bool
  | .vNull => false
  | .vBool b => b
  | .vInt n => n != 0
  | .vStr s => s != ""
  | .vList l => !l.isEmpty
  | .vDict d => !d.isEmpty

/-- Python `x or y` on extraction values. -/
def pyOrV (x y : Value) : Value := if truthyV x then x else y

/-- Python `info.get(k)`: the stored value, `None` when the key is absent. -/
def dget (d : List (String × Value)) (k : String) : Value :=
  match d.lookup k with
  | some v => v
  | none => .vNull

/-- Python `info.get(k, default)`. -/
def dgetD (d : List (String × Value)) (k : String) (v₀ : Value) : Value :=
  match d.lookup k with
  | some v => v
  | none => v₀

mutual

/-- Python `repr()` on extraction values (strings quoted, lists bracketed). -/
def pyRepr : Value → String
  | .vNull => "None"
  | .vBool true => "True"
  | .vBool false => "False"
  | .vInt n => toString n
  | .vStr s => "'" ++ s ++ "'"
  | .vList l => "[" ++ pyReprList l ++ "]"
  | .vDict _ => "<dict>"

/-- Comma-separated `repr`s of a list's elements. -/
def pyReprList : List Value → String
  | [] => ""
  | [x] => pyRepr x
  | x :: y :: xs => pyRepr x ++ ", " ++ pyReprList (y :: xs)

end

/-- Python `str()` on extraction values, as used by f-string interpolation of
the video id (a string in practice). -/
def pyShow : Value → String
  | .vStr s => s
  | v => pyRepr v

/-- The observable result of a successful `download_video_file` call: the
downloaded bytes, the file extension, the file name, and the format
expression used. -/
structure DownloadResult where
  data : List Nat
  extension : String
  filename : String
  usedFormat : String

/-- The metadata record assembled at src/main.py:422-435. -/
def baseMetadata (info : List (String × Value)) (quality now : String) :
    List (String × Value) :=
  [("video_id", dget info "id"),
   ("title", dget info "title"),
   ("author", dget info "uploader"),
   ("publish_date", dget info "upload_date"),
   ("duration", dget info "duration"),
   ("view_count", dget info "view_count"),
   ("like_count", dget info "like_count"),
   ("description", dget info "description"),
   ("thumbnail", dget info "thumbnail"),
   ("url", pyOrV (dget info "webpage_url") (dget info "url")),
   ("collected_at", Value.vStr now),
   ("quality_requested", Value.vStr quality)]

/-- Fallible body of `process_single_video` (src/main.py:420-474): the `try`
block.  External effects enter as parameters: `dl` is the outcome of
`download_video_file`, `setValueRes` the outcome of `Actor.set_value`, and
`openStoreRes` the outcome of `Actor.open_key_value_store` (carrying the
store's `id` attribute, `none` when the attribute is absent).  Since Python
dictionaries have unique keys, `metadata.update` is modelled as appending the
fresh keys. -/
def psvBody (info : List (String × Value)) (download_mode quality : String)
    (dl : Except String DownloadResult) (setValueRes : Except String Unit)
    (openStoreRes : Except String (Option String)) (now : String) :
    Except String (List (String × Value)) :=
  let metadata := baseMetadata info quality now
  if download_mode = "videos" then
    match dl with
    | .error e => .error e
    | .ok r =>
      let key := generate_safe_key (pyShow (dgetD info "id" (.vStr "unknown"))) r.extension
      let metadata := metadata ++
        [("file_size", Value.vInt r.data.length),
         ("file_extension", Value.vStr r.extension),
         ("file_path", Value.vStr key),
         ("downloaded_format", Value.vStr r.usedFormat)]
      match setValueRes with
      | .error e => .error e
      | .ok _ =>
        match openStoreRes with
        | .error e => .error e
        | .ok storeId =>
          match storeId with
          | some sid =>
            if sid ≠ "" then
              .ok (metadata ++ [("download_url", Value.vStr
                ("https://api.apify.com/v2/key-value-stores/" ++ sid ++
                  "/records/" ++ key ++ "?raw=1"))])
            else
              .ok (metadata ++ [("download_url", Value.vNull)])
          | none => .ok (metadata ++ [("download_url", Value.vNull)])
  else
    .ok (metadata ++
      [("file_size", Value.vNull),
       ("file_extension", Value.vNull),
       ("file_path", Value.vNull),
       ("downloaded_format", Value.vNull),
       ("download_url", Value.vNull)])

/-- The error record built by the `except` handler of `process_single_video`
(src/main.py:478-486). -/
def psvErrorRecord (info : List (String × Value)) (quality e now : String) :
    List (String × Value) :=
  [("video_id", dget info "id"),
   ("url", pyOrV (dget info "webpage_url") (dget info "url")),
   ("error", Value.vStr e),
   ("quality_requested", Value.vStr quality),
   ("downloaded_format", Value.vNull),
   ("download_url", Value.vNull),
   ("collected_at", Value.vStr now)]

/-- Model of `process_single_video` (src/main.py:400-486): run the `try` body
and convert any exception into the error record.  The two `datetime.now`
calls are both modelled by the parameter `now`. -/
def process_single_video (info : List (String × Value)) (download_mode quality : String)
    (dl : Except String DownloadResult) (setValueRes : Except String Unit)
    (openStoreRes : Except String (Option String)) (now : String) :
    List (String × Value) :=
  match psvBody info download_mode quality dl setValueRes openStoreRes now with
  | .ok r => r
  | .error e => psvErrorRecord info quality e now

/-- Python `isinstance(v, dict)` on extraction values. -/
def isDictV : Value → Bool
  | .vDict _ => true
  | _ => false

/-- The dictionary carried by a `vDict` value (unreachable default for other
constructors). -/
def asDict : Value → List (String × Value)
  | .vDict d => d
  | _ => []

/-- Python iteration over a value, as performed by the comprehension
`[e for e in entries if e is not None]` (src/main.py:369): a list yields its
elements, a string its one-character substrings, a dictionary its keys (in
insertion order); `none` models the `TypeError` raised for the non-iterable
values (`None`, booleans, numbers). -/
def pyIter : Value → Option (List Value)
  | .vList l => some l
  | .vStr s => some (s.data.map (fun c => Value.vStr ⟨[c]⟩))
  | .vDict d => some (d.map (fun kv => Value.vStr kv.1))
  | _ => none

/-- Stand-in message for the `TypeError` raised when iterating a non-iterable
`entries` value; the claims do not depend on the exact wording. -/
def typeErrorMsg : String := "TypeError"

/-- Stand-in message for the `AttributeError` raised when a truthy non-dict
playlist entry reaches `process_single_video` (whose own handler re-raises on
`info.get`); the claims do not depend on the exact wording. -/
def attrErrorMsg : String := "AttributeError"

/-- The error record built by the `except` handler of `process_url`
(src/main.py:382-389). -/
def urlErrorRecord (url e quality now : String) : List (String × Value) :=
  [("url", Value.vStr url),
   ("error", Value.vStr e),
   ("quality_requested", Value.vStr quality),
   ("collected_at", Value.vStr now)]

/-- The playlist-entries handling of `process_url` (src/main.py:363-375): a
null `entries` value becomes the empty list; any other value is iterated as
Python would (`pyIter` — a `TypeError` when not iterable), the null items are
dropped by the comprehension and the falsy ones by `if entry:`, and each
surviving item is handed to the single-item processor.  A truthy non-dict
item makes `process_single_video` re-raise inside its own handler
(`AttributeError` on `info.get`), which the catch-all of `process_url`
converts into a single error record. -/
def processEntries (url quality now : String)
    (psv : List (String × Value) → List (String × Value)) (v : Value) :
    List (List (String × Value)) :=
  if isNullV v then []
  else
    match pyIter v with
    | none => [urlErrorRecord url typeErrorMsg quality now]
    | some items =>
      let kept := (items.filter (fun x => !isNullV x)).filter truthyV
      if kept.all isDictV then
        kept.map (fun x => psv (asDict x))
      else
        [urlErrorRecord url attrErrorMsg quality now]

/-- Model of `process_url` (src/main.py:300-397).  The metadata extraction
call enters as `extract : Except String (Option Dict)` — exception, `None`,
or a metadata dictionary, per the extraction library's contract — and the
single-item processor (total, per `process_single_video`) as `psv`.  A falsy
(`None` or empty) result triggers the `Could not extract info` error; a
result containing an `entries` key is handled by `processEntries`. -/
def process_url (url quality now : String)
    (extract : Except String (Option (List (String × Value))))
    (psv : List (String × Value) → List (String × Value)) :
    List (List (String × Value)) :=
  match extract with
  | .error e => [urlErrorRecord url e quality now]
  | .ok info =>
    match info with
    | none => [urlErrorRecord url ("Could not extract info for " ++ url) quality now]
    | some d =>
      if d.isEmpty then
        [urlErrorRecord url ("Could not extract info for " ++ url) quality now]
      else if (d.lookup "entries").isSome then
        processEntries url quality now psv (dget d "entries")
      else
        [psv d]

/-! Theorems. -/

theorem strLen_mk (l : List Char) : String.length ⟨l⟩ = l.length := rfl

theorem strData_append (a b : String) : (a ++ b).data = a.data ++ b.data :=
  String.data_append a b

theorem strEndsWith_iff (s suff : String) :
    strEndsWith s suff = true ↔ suff.data <:+ s.data := by
  simp [strEndsWith]

theorem strLen_data (s : String) : s.length = s.data.length := rfl

/-- The extension suffix is a list suffix of `video_id ++ "." ++ extension`. -/
theorem dot_ext_suffix (video_id extension : String) :
    ("." ++ extension).data <:+ (video_id ++ "." ++ extension).data := by
  rw [strData_append, strData_append, strData_append, List.append_assoc]
  exact List.suffix_append _ _

/-- Claim C2 (amended): for every `video_id` and every `extension` of length
at most 255, the storage key returned by `generate_safe_key` has length at
most 256 characters and ends with a dot followed by the extension. -/
theorem generate_safe_key_bounded (video_id extension : String)
    (h : extension.length ≤ 255) :
    (generate_safe_key video_id extension).length ≤ 256 ∧
      strEndsWith (generate_safe_key video_id extension) ("." ++ extension) = true := by
  simp only [generate_safe_key]
  by_cases h1 : (video_id ++ "." ++ extension).length > 256
  · rw [if_pos h1]
    by_cases h2 :
        strEndsWith ⟨(video_id ++ "." ++ extension).data.take 256⟩ ("." ++ extension) = true
    · rw [if_neg (fun hc => hc h2)]
      refine ⟨?_, h2⟩
      rw [strLen_mk, List.length_take]
      omega
    · rw [if_pos h2]
      constructor
      · have hto : ((256 : Int) - (extension.length : Int) - 1).toNat
            = 255 - extension.length := by omega
        have hlen : (pyTakeTo video_id ((256 : Int) - (extension.length : Int) - 1)).length
            ≤ 255 - extension.length := by
          rw [pyTakeTo, if_pos (by omega), strLen_mk, List.length_take, hto]
          omega
        rw [String.length_append, String.length_append]
        have hdot : (".").length = 1 := rfl
        omega
      · exact (strEndsWith_iff _ _).mpr (dot_ext_suffix _ _)
  · rw [if_neg h1]
    exact ⟨by omega, (strEndsWith_iff _ _).mpr (dot_ext_suffix _ _)⟩

set_option maxRecDepth 40000 in
/-- Claim C2 counterexample: with `video_id = "a"` and a 256-character
extension the generated key has 257 characters, violating the 256-character
bound claimed for every `video_id` and every `extension`. -/
theorem generate_safe_key_counterexample :
    ¬ ((generate_safe_key "a" longExtension).length ≤ 256 ∧
      strEndsWith (generate_safe_key "a" longExtension) ("." ++ longExtension) = true) := by
  decide

/-- Claim C2 witness: the amended bound instantiated at `video_id = "abc123"`
and `extension = "mp4"`. -/
theorem generate_safe_key_bounded_witness :
    ("mp4" : String).length ≤ 255 ∧
      ((generate_safe_key "abc123" "mp4").length ≤ 256 ∧
        strEndsWith (generate_safe_key "abc123" "mp4") ("." ++ "mp4") = true) :=
  ⟨by decide, generate_safe_key_bounded "abc123" "mp4" (by decide)⟩

/-- Claim C7: for every recognized quality input (`best`, `720p`/`720`,
`1080p`/`1080`, `audio_only`/`audio`, case-insensitively), the candidate list
is duplicate-free and its last element is the unqualified `"best"` selector. -/
theorem build_format_candidates_recognized (quality : Option String)
    (h : strLower (pyOrStr quality "best") ∈
      (["best", "720p", "720", "1080p", "1080", "audio_only", "audio"] : List String)) :
    (build_format_candidates quality).Nodup ∧
      (build_format_candidates quality).getLast? = some "best" := by
  simp only [build_format_candidates]
  simp only [List.mem_cons, List.not_mem_nil, or_false] at h
  rcases h with h | h | h | h | h | h | h <;> rw [h] <;> exact ⟨by decide, by decide⟩

/-- Claim C7 witness: the recognized-quality property instantiated at the
mixed-case input `"1080P"`. -/
theorem build_format_candidates_recognized_witness :
    (strLower (pyOrStr (some "1080P") "best") ∈
      (["best", "720p", "720", "1080p", "1080", "audio_only", "audio"] : List String)) ∧
      ((build_format_candidates (some "1080P")).Nodup ∧
        (build_format_candidates (some "1080P")).getLast? = some "best") :=
  ⟨by decide, build_format_candidates_recognized (some "1080P") (by decide)⟩

/-- Claim C8: every quality input outside the recognized non-default set
(which includes `None`, the empty string, and every unrecognized name, all of
which land in the default chain) produces exactly the list produced for the
input `"best"`. -/
theorem build_format_candidates_default (quality : Option String)
    (h : strLower (pyOrStr quality "best") ∉
      (["audio_only", "audio", "1080p", "1080", "720p", "720"] : List String)) :
    build_format_candidates quality = build_format_candidates (some "best") := by
  simp only [List.mem_cons, List.not_mem_nil, or_false, not_or] at h
  obtain ⟨h1, h2, h3, h4, h5, h6⟩ := h
  simp only [build_format_candidates, h1, h2, h3, h4, h5, h6, or_self, if_false]
  decide

/-- Claim C8 witness: an unrecognized quality `"4k"` yields the same chain as
the default `"best"`. -/
theorem build_format_candidates_default_witness :
    (strLower (pyOrStr (some "4k") "best") ∉
      (["audio_only", "audio", "1080p", "1080", "720p", "720"] : List String)) ∧
      build_format_candidates (some "4k") = build_format_candidates (some "best") :=
  ⟨by decide, build_format_candidates_default (some "4k") (by decide)⟩

theorem insertByMtimeDesc_length (x : DirEntry) (l : List DirEntry) :
    (insertByMtimeDesc x l).length = l.length + 1 := by
  induction l with
  | nil => rfl
  | cons y ys ih =>
    by_cases hc : y.mtime ≤ x.mtime <;>
      simp [insertByMtimeDesc, hc, ih]

theorem sortByMtimeDesc_length (l : List DirEntry) :
    (sortByMtimeDesc l).length = l.length := by
  induction l with
  | nil => rfl
  | cons x xs ih => simp [sortByMtimeDesc, insertByMtimeDesc_length, ih]

/-- The head of the stable descending sort is an element of the input with a
maximal modification time. -/
theorem sortByMtimeDesc_head_max (l : List DirEntry) :
    ∀ h t, sortByMtimeDesc l = h :: t →
      h ∈ l ∧ ∀ a ∈ l, a.mtime ≤ h.mtime := by
  induction l with
  | nil => intro h t heq; simp [sortByMtimeDesc] at heq
  | cons x xs ih =>
    intro h t heq
    rw [sortByMtimeDesc] at heq
    cases hs : sortByMtimeDesc xs with
    | nil =>
      have hxs : xs = [] := by
        have hlen := congrArg List.length hs
        rw [sortByMtimeDesc_length] at hlen
        exact List.length_eq_zero.mp hlen
      subst hxs
      rw [hs] at heq
      simp only [insertByMtimeDesc, List.cons.injEq] at heq
      obtain ⟨hx, -⟩ := heq
      subst hx
      simp
    | cons y ys =>
      rw [hs] at heq
      obtain ⟨hy, hmax⟩ := ih y ys hs
      by_cases hc : y.mtime ≤ x.mtime
      · rw [insertByMtimeDesc, if_pos hc] at heq
        obtain ⟨hx, -⟩ := List.cons.injEq .. |>.mp heq
        subst hx
        refine ⟨List.mem_cons_self _ _, ?_⟩
        intro a ha
        rcases List.mem_cons.mp ha with ha | ha
        · subst ha; exact le_refl _
        · exact le_trans (hmax a ha) hc
      · rw [insertByMtimeDesc, if_neg hc] at heq
        obtain ⟨hx, -⟩ := List.cons.injEq .. |>.mp heq
        subst hx
        refine ⟨List.mem_cons_of_mem _ hy, ?_⟩
        intro a ha
        rcases List.mem_cons.mp ha with ha | ha
        · subst ha; omega
        · exact hmax a ha

/-- Claim C9: `find_downloaded_media` returns `none` exactly when no regular
file in the directory has a recognized (case-insensitive) media extension,
and otherwise returns a matching file whose modification time is at least
that of every other matching file. -/
theorem find_downloaded_media_spec (entries : List DirEntry) :
    match find_downloaded_media entries with
    | none => entries.filter isMediaCandidate = []
    | some e => e ∈ entries.filter isMediaCandidate ∧
        ∀ a ∈ entries.filter isMediaCandidate, a.mtime ≤ e.mtime := by
  simp only [find_downloaded_media]
  by_cases hc : (entries.filter isMediaCandidate).isEmpty
  · rw [if_pos hc]
    simpa [List.isEmpty_iff] using hc
  · rw [if_neg hc]
    have hne : entries.filter isMediaCandidate ≠ [] := by
      simpa [List.isEmpty_iff] using hc
    cases hs : sortByMtimeDesc (entries.filter isMediaCandidate) with
    | nil =>
      exfalso
      have hlen := congrArg List.length hs
      rw [sortByMtimeDesc_length] at hlen
      exact hne (List.length_eq_zero.mp hlen)
    | cons h t =>
      simpa using sortByMtimeDesc_head_max _ h t hs

theorem pyOrC_null (y : CVal) : pyOrC CVal.vNull y = y := by
  simp [pyOrC, truthyC]

/-- Claim C10 counterexample: this cookie has a present, truthy name and a
non-null value, yet no cookie-jar line is emitted — the integer domain makes
`.startswith` raise `AttributeError`, and the catch-all handler returns
`None`. -/
theorem format_cookie_counterexample :
    truthyC (cget badDomainCookie "name") = true ∧
      cget badDomainCookie "value" ≠ CVal.vNull ∧
      format_cookie_as_netscape badDomainCookie = none := by
  decide

/-- Claim C10 (amended): provided the cookie's domain — after the
`.vimeo.com` default is applied — is a string, a cookie-jar line is emitted
iff the name is present and truthy and the value is not null (so an
empty-string value is still formatted and an empty-string name is skipped);
and when the domain, path, secure and expiry fields are all absent they are
replaced by the defaults `.vimeo.com`, `/`, `FALSE` and `2147483647`. -/
theorem format_cookie_spec (cookie : List (String × CVal))
    (hdom : ∃ s, pyOrC (cget cookie "domain") (CVal.vStr ".vimeo.com") = CVal.vStr s) :
    ((format_cookie_as_netscape cookie).isSome = true ↔
      (truthyC (cget cookie "name") = true ∧ cget cookie "value" ≠ CVal.vNull)) ∧
    (cookie.lookup "domain" = none → cookie.lookup "path" = none →
      cookie.lookup "secure" = none → cookie.lookup "expirationDate" = none →
      cookie.lookup "expires" = none →
      truthyC (cget cookie "name") = true → cget cookie "value" ≠ CVal.vNull →
      format_cookie_as_netscape cookie =
        some ((if truthyC (cget cookie "httpOnly") || truthyC (cget cookie "http_only")
            then "#HttpOnly_" else "") ++ ".vimeo.com" ++ "\t" ++ "TRUE" ++ "\t" ++
          "/" ++ "\t" ++ "FALSE" ++ "\t" ++ "2147483647" ++ "\t" ++
          pyStrC (cget cookie "name") ++ "\t" ++ pyStrC (cget cookie "value"))) := by
  obtain ⟨ds, hds⟩ := hdom
  constructor
  · simp only [format_cookie_as_netscape, formatCookieBody, hds]
    by_cases hn : truthyC (cget cookie "name") = true <;>
      by_cases hv : cget cookie "value" = CVal.vNull <;>
        simp [hn, hv]
  · intro hd hp hsec he1 he2 hn hv
    have hcd : cget cookie "domain" = CVal.vNull := by rw [cget, hd]
    have hcp : cget cookie "path" = CVal.vNull := by rw [cget, hp]
    have hcs : cgetD cookie "secure" (CVal.vBool false) = CVal.vBool false := by
      rw [cgetD, hsec]
    have hce1 : cget cookie "expirationDate" = CVal.vNull := by rw [cget, he1]
    have hce2 : cget cookie "expires" = CVal.vNull := by rw [cget, he2]
    simp only [format_cookie_as_netscape, formatCookieBody, hcd, hcp, hcs, hce1, hce2,
      pyOrC_null]
    rw [if_neg (by simp [hn, hv])]
    have h231 : toString (2147483647 : Int) = "2147483647" := rfl
    simp [strStartsWith, pyStrC, h231, truthyC]

/-- Claim C10 witness: the amended property instantiated at a cookie with a
truthy name, an empty-string value, and all defaultable fields absent. -/
theorem format_cookie_spec_witness :
    (∃ s, pyOrC (cget witnessCookie "domain") (CVal.vStr ".vimeo.com") = CVal.vStr s) ∧
      (((format_cookie_as_netscape witnessCookie).isSome = true ↔
        (truthyC (cget witnessCookie "name") = true ∧
          cget witnessCookie "value" ≠ CVal.vNull)) ∧
      (witnessCookie.lookup "domain" = none → witnessCookie.lookup "path" = none →
        witnessCookie.lookup "secure" = none →
        witnessCookie.lookup "expirationDate" = none →
        witnessCookie.lookup "expires" = none →
        truthyC (cget witnessCookie "name") = true →
        cget witnessCookie "value" ≠ CVal.vNull →
        format_cookie_as_netscape witnessCookie =
          some ((if truthyC (cget witnessCookie "httpOnly") ||
                truthyC (cget witnessCookie "http_only")
              then "#HttpOnly_" else "") ++ ".vimeo.com" ++ "\t" ++ "TRUE" ++ "\t" ++
            "/" ++ "\t" ++ "FALSE" ++ "\t" ++ "2147483647" ++ "\t" ++
            pyStrC (cget witnessCookie "name") ++ "\t" ++
            pyStrC (cget witnessCookie "value")))) :=
  ⟨⟨".vimeo.com", by decide⟩, format_cookie_spec witnessCookie ⟨".vimeo.com", by decide⟩⟩

/-- Every generated cookie-jar file starts with the marker line, hence
contains the marker and is non-empty. -/
theorem marker_infix_join (rest : List String) :
    netscapeMarker.data <:+: (joinNL (netscapeHeader ++ rest)).data ∧
      joinNL (netscapeHeader ++ rest) ≠ "" := by
  have hexp : joinNL (netscapeHeader ++ rest) =
      netscapeMarker ++ "\n" ++ joinNL ("# https://curl.se/docs/http-cookies.html" ::
        "# This file was generated by Vimeo Video Downloader Actor" :: "" :: rest) := rfl
  rw [hexp, strData_append, strData_append]
  constructor
  · rw [List.append_assoc]
    exact (List.prefix_append _ _).isInfix
  · intro hcontra
    have hdata := congrArg String.data hcontra
    simp only [String.data_append] at hdata
    rw [List.append_assoc, List.append_eq_nil] at hdata
    have : netscapeMarker.data = [] := hdata.1
    exact absurd this (by decide)

/-- Claim C5: the cookie normalizer is idempotent — applying it to its own
output returns that output unchanged, for every input string and every
behaviour of the JSON parser; in particular a string already containing the
cookie-jar marker is returned unchanged. -/
theorem convert_json_cookies_idempotent (parse : String → Option JTop) (s : String) :
    convert_json_cookies_to_netscape parse (convert_json_cookies_to_netscape parse s)
      = convert_json_cookies_to_netscape parse s := by
  have fix : ∀ t : String, t ≠ "" → netscapeMarker.data <:+: t.data →
      convert_json_cookies_to_netscape parse t = t := by
    intro t h1 h2
    simp only [convert_json_cookies_to_netscape]
    rw [if_neg h1, if_pos h2]
  by_cases h0 : s = ""
  · subst h0; rfl
  · by_cases hm : netscapeMarker.data <:+: s.data
    · have hs_id : convert_json_cookies_to_netscape parse s = s := fix s h0 hm
      rw [hs_id]
      exact hs_id
    · cases hp : parse s with
      | none =>
        have hs_id : convert_json_cookies_to_netscape parse s = s := by
          simp only [convert_json_cookies_to_netscape]
          rw [if_neg h0, if_neg hm, hp]
        rw [hs_id]
        exact hs_id
      | some data =>
        obtain ⟨hinf, hne⟩ := marker_infix_join (cookieLines data)
        have hcs : convert_json_cookies_to_netscape parse s
            = joinNL (netscapeHeader ++ cookieLines data) := by
          simp only [convert_json_cookies_to_netscape]
          rw [if_neg h0, if_neg hm, hp]
        rw [hcs]
        exact fix _ hne hinf

/-- Claim C6: an input that the JSON parser rejects and that does not contain
the cookie-jar marker is returned unchanged; the normalizer is a total
function, so it cannot raise. -/
theorem convert_json_cookies_malformed (parse : String → Option JTop) (s : String)
    (hparse : parse s = none)
    (hm : ¬ (netscapeMarker.data <:+: s.data)) :
    convert_json_cookies_to_netscape parse s = s := by
  by_cases h0 : s = ""
  · subst h0; rfl
  · simp only [convert_json_cookies_to_netscape]
    rw [if_neg h0, if_neg hm, hparse]

/-- Claim C6 witness: the malformed-input property instantiated at the
non-JSON string `"not json"` with a parser that rejects it. -/
theorem convert_json_cookies_malformed_witness :
    ((fun _ : String => (none : Option JTop)) "not json" = none) ∧
      ¬ (netscapeMarker.data <:+: ("not json" : String).data) ∧
      convert_json_cookies_to_netscape (fun _ => none) "not json" = "not json" :=
  ⟨rfl, by decide,
    convert_json_cookies_malformed (fun _ => none) "not json" rfl (by decide)⟩

/-- Claim C3: `process_single_video` never propagates an exception — it is
total into records by construction, mirroring the catch-all handler — and
whenever its body raises with message `e`, the result is the error record
with exactly the fields `video_id`, `url`, `error`, `quality_requested`,
`downloaded_format = null`, `download_url = null`, `collected_at`. -/
theorem process_single_video_error_handling
    (info : List (String × Value)) (download_mode quality : String)
    (dl : Except String DownloadResult) (setValueRes : Except String Unit)
    (openStoreRes : Except String (Option String)) (now e : String)
    (h : psvBody info download_mode quality dl setValueRes openStoreRes now
      = .error e) :
    process_single_video info download_mode quality dl setValueRes openStoreRes now =
      [("video_id", dget info "id"),
       ("url", pyOrV (dget info "webpage_url") (dget info "url")),
       ("error", Value.vStr e),
       ("quality_requested", Value.vStr quality),
       ("downloaded_format", Value.vNull),
       ("download_url", Value.vNull),
       ("collected_at", Value.vStr now)] := by
  simp [process_single_video, h, psvErrorRecord]

/-- Claim C3 witness: a failing download in `videos` mode yields exactly the
error record. -/
theorem process_single_video_error_handling_witness :
    psvBody [] "videos" "best" (.error "boom") (.ok ()) (.ok none) "t"
        = .error "boom" ∧
      process_single_video [] "videos" "best" (.error "boom") (.ok ()) (.ok none) "t" =
        [("video_id", dget [] "id"),
         ("url", pyOrV (dget [] "webpage_url") (dget [] "url")),
         ("error", Value.vStr "boom"),
         ("quality_requested", Value.vStr "best"),
         ("downloaded_format", Value.vNull),
         ("download_url", Value.vNull),
         ("collected_at", Value.vStr "t")] :=
  ⟨rfl, process_single_video_error_handling [] "videos" "best"
    (.error "boom") (.ok ()) (.ok none) "t" "boom" rfl⟩

/-- Claim C4: in metadata-only mode the single-item processor never invokes
the download operation and touches no store — its result is independent of
all three external outcomes — and the five download-related fields of the
resulting record are all null. -/
theorem process_single_video_metadata_only
    (info : List (String × Value)) (quality now : String)
    (dl dl' : Except String DownloadResult) (sv sv' : Except String Unit)
    (os os' : Except String (Option String)) :
    process_single_video info "metadata_only" quality dl sv os now =
      process_single_video info "metadata_only" quality dl' sv' os' now ∧
    (process_single_video info "metadata_only" quality dl sv os now).lookup
        "file_size" = some Value.vNull ∧
    (process_single_video info "metadata_only" quality dl sv os now).lookup
        "file_extension" = some Value.vNull ∧
    (process_single_video info "metadata_only" quality dl sv os now).lookup
        "file_path" = some Value.vNull ∧
    (process_single_video info "metadata_only" quality dl sv os now).lookup
        "downloaded_format" = some Value.vNull ∧
    (process_single_video info "metadata_only" quality dl sv os now).lookup
        "download_url" = some Value.vNull :=
  ⟨rfl, rfl, rfl, rfl, rfl, rfl⟩

/-- Claim C1 counterexample: a playlist whose `entries` field is null yields
zero output records — `process_url` does return an empty sequence. -/
theorem process_url_empty_counterexample :
    process_url "https://vimeo.com/user/videos" "best" "t"
      (.ok (some [("entries", Value.vNull)]))
      (fun d => process_single_video d "metadata_only" "best"
        (.error "unused") (.ok ()) (.ok none) "t") = [] := rfl

/-- A non-null iterable `entries` value yields zero records exactly when its
iteration, filtered of null and falsy items, is empty. -/
theorem processEntries_eq_nil_iff_of_iter (url quality now : String)
    (psv : List (String × Value) → List (String × Value)) (v : Value)
    (items : List Value) (hnn : isNullV v = false) (hit : pyIter v = some items) :
    processEntries url quality now psv v = [] ↔
      (items.filter (fun x => !isNullV x)).filter truthyV = [] := by
  simp only [processEntries, hnn, Bool.false_eq_true, if_false, hit]
  by_cases hkept : (items.filter (fun x => !isNullV x)).filter truthyV = []
  · simp [hkept]
  · apply iff_of_false
    · by_cases hall :
          ((items.filter (fun x => !isNullV x)).filter truthyV).all isDictV = true
      · rw [if_pos hall]
        intro hc
        have hlen := congrArg List.length hc
        rw [List.length_map] at hlen
        exact hkept (List.length_eq_zero.mp hlen)
      · rw [if_neg hall]
        exact fun hc => List.cons_ne_nil _ _ hc
    · exact hkept

/-- The entries handling yields zero records exactly when the `entries` value
is null, or iterable with no truthy non-null items. -/
theorem processEntries_eq_nil_iff (url quality now : String)
    (psv : List (String × Value) → List (String × Value)) (v : Value) :
    processEntries url quality now psv v = [] ↔
      (v = Value.vNull ∨
        ∃ items, pyIter v = some items ∧
          (items.filter (fun x => !isNullV x)).filter truthyV = []) := by
  cases v with
  | vNull => simp [processEntries, isNullV]
  | vBool b =>
    apply iff_of_false
    · exact fun hc => List.cons_ne_nil _ _ hc
    · rintro (h | ⟨items, hit, -⟩)
      · exact Value.noConfusion h
      · have hit' : (none : Option (List Value)) = some items := hit
        exact Option.noConfusion hit'
  | vInt n =>
    apply iff_of_false
    · exact fun hc => List.cons_ne_nil _ _ hc
    · rintro (h | ⟨items, hit, -⟩)
      · exact Value.noConfusion h
      · have hit' : (none : Option (List Value)) = some items := hit
        exact Option.noConfusion hit'
  | vList l =>
    rw [processEntries_eq_nil_iff_of_iter url quality now psv (Value.vList l) l rfl rfl]
    constructor
    · intro h
      exact Or.inr ⟨l, rfl, h⟩
    · rintro (h | ⟨items, hit, hfil⟩)
      · exact Value.noConfusion h
      · have hit' : (some l : Option (List Value)) = some items := hit
        injection hit' with h
        subst h
        exact hfil
  | vStr s =>
    rw [processEntries_eq_nil_iff_of_iter url quality now psv (Value.vStr s)
      (s.data.map (fun c => Value.vStr ⟨[c]⟩)) rfl rfl]
    constructor
    · intro h
      exact Or.inr ⟨_, rfl, h⟩
    · rintro (h | ⟨items, hit, hfil⟩)
      · exact Value.noConfusion h
      · have hit' : (some (s.data.map (fun c => Value.vStr ⟨[c]⟩)) :
            Option (List Value)) = some items := hit
        injection hit' with h
        subst h
        exact hfil
  | vDict dd =>
    rw [processEntries_eq_nil_iff_of_iter url quality now psv (Value.vDict dd)
      (dd.map (fun kv : String × Value => Value.vStr kv.1)) rfl rfl]
    constructor
    · intro h
      exact Or.inr ⟨_, rfl, h⟩
    · rintro (h | ⟨items, hit, hfil⟩)
      · exact Value.noConfusion h
      · have hit' : (some (dd.map (fun kv : String × Value => Value.vStr kv.1)) :
            Option (List Value)) = some items := hit
        injection hit' with h
        subst h
        exact hfil

/-- Claim C1 (amended): a `process_url` call returns zero records exactly
when the extraction result is a truthy dictionary containing an `entries`
key whose value is null, or iterable (a list of its elements, a string of its
characters, a dictionary of its keys) with no truthy non-null items — this
covers a null entry list, an entry list filtering to empty, and the empty
string/dictionary `entries` values; in every other case — single video,
extraction failure, falsy result, non-iterable `entries`, or a playlist with
surviving entries — at least one record (success or error) is produced. -/
theorem process_url_records_iff (url quality now : String)
    (extract : Except String (Option (List (String × Value))))
    (psv : List (String × Value) → List (String × Value)) :
    process_url url quality now extract psv = [] ↔
      (∃ d, extract = .ok (some d) ∧ d.isEmpty = false ∧
        (d.lookup "entries").isSome = true ∧
        (dget d "entries" = Value.vNull ∨
          ∃ items, pyIter (dget d "entries") = some items ∧
            (items.filter (fun x => !isNullV x)).filter truthyV = [])) := by
  cases extract with
  | error e => simp [process_url, urlErrorRecord]
  | ok info =>
    cases info with
    | none => simp [process_url, urlErrorRecord]
    | some d =>
      simp only [process_url, Except.ok.injEq, Option.some.injEq, exists_eq_left,
        exists_eq_left']
      by_cases hemp : d.isEmpty = true
      · rw [if_pos hemp]
        apply iff_of_false
        · exact fun hc => List.cons_ne_nil _ _ hc
        · rintro ⟨hE, -⟩
          rw [hemp] at hE
          simp at hE
      · rw [if_neg hemp]
        have hE : d.isEmpty = false := by simpa using hemp
        by_cases hent : (d.lookup "entries").isSome = true
        · rw [if_pos hent]
          rw [processEntries_eq_nil_iff]
          constructor
          · intro h
            exact ⟨hE, hent, h⟩
          · rintro ⟨-, -, h⟩
            exact h
        · rw [if_neg hent]
          apply iff_of_false
          · exact fun hc => List.cons_ne_nil _ _ hc
          · rintro ⟨-, hK, -⟩
            exact hent hK

end Vimeo
